import Mathlib

/-!
Shallow embedding of the two FastAPI microservices
(`src/user-service/main.py` and `src/workout-service/main.py`) of the
fastapi-microservices-workout-log repository, together with theorems
settling the specification claims about them.

Modelling conventions:
* Machine time (`datetime.utcnow()`) is a `Nat` counting seconds.
* The bcrypt password hash (`pwd_context.hash` / `pwd_context.verify`) is
  modelled by a deterministic tagging function; the only property the code
  relies on is that `verify p (hash p)` holds and that a hash of a
  different password does not verify.
* A JWT is modelled structurally: a claims payload (optional `sub`,
  mandatory `exp`) plus a signature string; `jwt.encode` signs the payload
  with an HMAC modelled as a tagging function of the secret and payload,
  and `jwt.decode` checks the signature and the `exp` claim (python-jose
  raises `ExpiredSignatureError`, a `JWTError`, when `exp` is in the past).
* HTTP errors (`HTTPException`) carry the status code and detail string.
* Stateful endpoints take the database state and return the (possibly
  unchanged) new state alongside an `Except` result, mirroring the
  per-request session semantics of the Python code.
-/

/-- An HTTP error raised by an endpoint (`fastapi.HTTPException`). -/
structure HTTPException where
  status_code : Nat
  detail : String
deriving DecidableEq, Repr

/-! ## User service: data model (`src/user-service/main.py`) -/

/-- `class UserBase(SQLModel): username: str` — the public response model. -/
structure UserBase where
  username : String
deriving DecidableEq, Repr

/-- `class User(UserBase, table=True)`: stored row with generated id and
the bcrypt hash. The `id` is the autoincrement primary key (always set
once the row is committed, so modelled as `Nat`). -/
structure User where
  id : Nat
  username : String
  hashed_password : String
deriving DecidableEq, Repr

/-- The user-service SQLite table plus the autoincrement counter. -/
structure UserDB where
  users : List User
  nextId : Nat
deriving DecidableEq, Repr

def UserDB.empty : UserDB := { users := [], nextId := 1 }

/-- `pwd_context.hash(password)`: deterministic model of the bcrypt hash. -/
def pwd_hash (password : String) : String :=
  "bcrypt$" ++ password

/-- `verify_password(plain_password, hashed_password)` from
`src/user-service/main.py`: passlib verifies a plaintext against a stored
hash; in the deterministic model this holds exactly when the stored hash
is the hash of the plaintext. -/
def verify_password (plain_password hashed_password : String) : Bool :=
  pwd_hash plain_password == hashed_password

/-! ## Token codec (shared HMAC-SHA256 scheme, duplicated in both files) -/

/-- The claims payload: `{"sub": ..., "exp": ...}`. The login endpoint puts
the username in `sub`; `create_access_token` always adds `exp`. -/
structure JWTPayload where
  sub : Option String
  exp : Nat
deriving DecidableEq, Repr

/-- Canonical string rendering of a payload, used as HMAC input. -/
def JWTPayload.repr (p : JWTPayload) : String :=
  (match p.sub with
   | none => "sub=∅"
   | some s => "sub=" ++ s) ++ ";exp=" ++ toString p.exp

/-- Model of HMAC-SHA256 over the serialized claims: a tag that is
injective in the (secret, payload) pair for the payloads the services
exchange. -/
def hmacSHA256 (secret : String) (p : JWTPayload) : String :=
  "hmac(" ++ secret ++ "|" ++ p.repr ++ ")"

/-- A signed token as produced by `jwt.encode(to_encode, SECRET_KEY,
algorithm="HS256")`: the claims plus the signature over them. -/
structure JWT where
  payload : JWTPayload
  sig : String
deriving DecidableEq, Repr

/-- `jwt.encode(claims, secret, algorithm="HS256")`. -/
def jwtEncode (secret : String) (p : JWTPayload) : JWT :=
  { payload := p, sig := hmacSHA256 secret p }

/-- The error type of python-jose (`JWTError`; `ExpiredSignatureError` is a
subclass raised when the `exp` claim has elapsed). -/
inductive JWTError where
  | invalidSignature
  | expiredSignature
deriving DecidableEq, Repr

/-- `jwt.decode(token, secret, algorithms=["HS256"])` at wall-clock time
`now`: verifies the HMAC signature, then validates the `exp` claim
(python-jose raises `ExpiredSignatureError` when `exp < now`), and returns
the claims payload. -/
def jwtDecode (secret : String) (now : Nat) (t : JWT) :
    Except JWTError JWTPayload :=
  if t.sig ≠ hmacSHA256 secret t.payload then
    .error .invalidSignature
  else if t.payload.exp < now then
    .error .expiredSignature
  else
    .ok t.payload

/-! ## User service: endpoints -/

/-- `create_access_token(data, expires_delta)` from
`src/user-service/main.py` lines 52–60: `expire = utcnow() + expires_delta`
when a delta is given, else `utcnow() + timedelta(minutes=15)`; the `exp`
claim is added to a copy of `data` and the result is signed. `data_sub` is
the `"sub"` entry of the `data` dict (the only entry the service ever
passes); `expires_delta` is in seconds. -/
def create_access_token (secret : String) (now : Nat) (data_sub : Option String)
    (expires_delta : Option Nat) : JWT :=
  let expire : Nat :=
    match expires_delta with
    | some d => now + d
    | none => now + 15 * 60
  jwtEncode secret { sub := data_sub, exp := expire }

/-- `ACCESS_TOKEN_EXPIRE_MINUTES = 30` from `src/user-service/main.py`. -/
def ACCESS_TOKEN_EXPIRE_MINUTES : Nat := 30

/-- `create_user` (`POST /users/`, lines 70–84): reject if a row with the
same username exists, else hash the password, insert the row, and return
it. The pair is (endpoint result, resulting table state); on the Conflict
path the session is never written. -/
def create_user (db : UserDB) (username password : String) :
    Except HTTPException User × UserDB :=
  match db.users.find? (fun u => u.username == username) with
  | some _ => (.error ⟨400, "Username already registered."⟩, db)
  | none =>
      let db_user : User :=
        { id := db.nextId
          username := username
          hashed_password := pwd_hash password }
      (.ok db_user, { users := db.users ++ [db_user], nextId := db.nextId + 1 })

/-- `get_user` (`GET /users/{user_id}`, lines 86–92): primary-key lookup,
404 when absent. -/
def get_user (db : UserDB) (user_id : Nat) : Except HTTPException User :=
  match db.users.find? (fun u => u.id == user_id) with
  | none => .error ⟨404, "User not found"⟩
  | some u => .ok u

/-- FastAPI serialization under `response_model=UserBase`: the JSON object
returned to the client has exactly the fields declared on `UserBase`,
i.e. the single key `"username"`. Both `create_user` and `get_user`
declare `response_model=UserBase`. -/
def userPublicView (u : User) : List (String × String) :=
  [("username", u.username)]

/-- `login_for_access_token` (`POST /token`, lines 94–110): select the
first row matching the form username; 401 unless it exists and the
password verifies; otherwise sign a token with `sub = username` and a
30-minute expiry. -/
def login_for_access_token (secret : String) (db : UserDB) (now : Nat)
    (username password : String) : Except HTTPException JWT :=
  match db.users.find? (fun u => u.username == username) with
  | none => .error ⟨401, "Incorrect username or password"⟩
  | some user =>
      if verify_password password user.hashed_password then
        .ok (create_access_token secret now (some user.username)
              (some (ACCESS_TOKEN_EXPIRE_MINUTES * 60)))
      else
        .error ⟨401, "Incorrect username or password"⟩

/-! ## Workout service: data model (`src/workout-service/main.py`) -/

/-- `class WorkoutCreate(WorkoutBase)`: the request body for
`POST /workouts/` — name, sets, reps, weight, and nothing else (in
particular no owner field). -/
structure WorkoutCreate where
  name : String
  sets : Int
  reps : Int
  weight : Int
deriving DecidableEq, Repr

/-- `class Workout(WorkoutBase, table=True)`: stored row with generated id
and the owner's username. -/
structure Workout where
  id : Nat
  name : String
  sets : Int
  reps : Int
  weight : Int
  owner_username : String
deriving DecidableEq, Repr

/-- The workout-service SQLite table plus the autoincrement counter. -/
structure WorkoutDB where
  workouts : List Workout
  nextId : Nat
deriving DecidableEq, Repr

def WorkoutDB.empty : WorkoutDB := { workouts := [], nextId := 1 }

/-! ## Workout service: helpers and endpoints -/

/-- Outcome of the blocking `requests.get` to the directory service:
either an HTTP response with a status code, or a failure to connect
(`requests.ConnectionError`). -/
inductive DirectoryResult where
  | response (status_code : Nat)
  | connectionError
deriving DecidableEq, Repr

/-- `user_exists(user_id)` from `src/workout-service/main.py` lines 45–53:
returns `status_code == 200`, and `False` when the connection to the user
service fails. `dir` is the outcome of the HTTP round-trip for the queried
id. -/
def user_exists (dir : DirectoryResult) : Bool :=
  match dir with
  | .response code => code == 200
  | .connectionError => false

/-- `get_current_user` from `src/workout-service/main.py` lines 55–72:
decode the bearer token with the shared secret; any `JWTError` (bad
signature, expired) and a missing `"sub"` claim alike raise the 401
`credentials_exception`; otherwise return the subject username. -/
def get_current_user (secret : String) (now : Nat) (token : JWT) :
    Except HTTPException String :=
  match jwtDecode secret now token with
  | .error _ => .error ⟨401, "Could not validate credentials"⟩
  | .ok payload =>
      match payload.sub with
      | none => .error ⟨401, "Could not validate credentials"⟩
      | some username => .ok username

/-- `create_workout` (`POST /workouts/`, lines 82–102, Policy B): resolve
the current user from the bearer token, then insert a `Workout` whose
`owner_username` is the verified subject; the committed row is returned.
The pair is (endpoint result, resulting table state). -/
def create_workout (secret : String) (now : Nat) (token : JWT)
    (db : WorkoutDB) (workout : WorkoutCreate) :
    Except HTTPException Workout × WorkoutDB :=
  match get_current_user secret now token with
  | .error e => (.error e, db)
  | .ok current_user =>
      let db_workout : Workout :=
        { id := db.nextId
          name := workout.name
          sets := workout.sets
          reps := workout.reps
          weight := workout.weight
          owner_username := current_user }
      (.ok db_workout,
       { workouts := db.workouts ++ [db_workout], nextId := db.nextId + 1 })

/-- `get_workouts` (`GET /workouts/`, lines 104–115, Policy B): resolve the
current user from the bearer token, then return the rows whose
`owner_username` equals it, in table order. -/
def get_workouts (secret : String) (now : Nat) (token : JWT)
    (db : WorkoutDB) : Except HTTPException (List Workout) :=
  match get_current_user secret now token with
  | .error e => .error e
  | .ok current_user =>
      .ok (db.workouts.filter (fun w => w.owner_username == current_user))

/-- A Policy A workout row: the owner reference is the numeric user id
supplied in the request body (spec §4.3, Policy A). -/
structure WorkoutA where
  id : Nat
  name : String
  sets : Int
  reps : Int
  weight : Int
  user_id : Nat
deriving DecidableEq, Repr

/-- The Policy A workout table plus the autoincrement counter. -/
structure WorkoutADB where
  workouts : List WorkoutA
  nextId : Nat
deriving DecidableEq, Repr

/-- Modelled from the spec: the Policy A (unauthenticated, id-based)
variant of `create_workout` is not present under `src/` — only its
`user_exists` helper survives in `src/workout-service/main.py`. Per spec
§4.3 Policy A, the caller supplies a numeric owner id in the body, the
ledger performs the synchronous `user_exists` check first, and "fails the
create with NotFound (propagated as a client error) if the check returns
false or the directory is unreachable". `dir` is the outcome of the
directory round-trip for `user_id`. -/
def create_workout_policyA (db : WorkoutADB) (dir : DirectoryResult)
    (name : String) (sets reps weight : Int) (user_id : Nat) :
    Except HTTPException WorkoutA × WorkoutADB :=
  if user_exists dir then
    let row : WorkoutA :=
      { id := db.nextId, name := name, sets := sets, reps := reps
        weight := weight, user_id := user_id }
    (.ok row, { workouts := db.workouts ++ [row], nextId := db.nextId + 1 })
  else
    (.error ⟨404, "User not found"⟩, db)

/-! ## Claims -/

/-- C1 (Policy B listing): for every database state and every verified
bearer token with subject `u`, `get_workouts` succeeds and returns exactly
the stored workout rows whose `owner_username` equals `u` — every returned
row is owned by `u`, every stored row owned by `u` is returned, and no row
of another owner appears — regardless of which users created workouts in
which order (the state `db` is arbitrary). -/
theorem get_workouts_owner_filter (secret : String) (now : Nat) (token : JWT)
    (db : WorkoutDB) (u : String)
    (h : get_current_user secret now token = .ok u) :
    ∃ ws, get_workouts secret now token db = .ok ws ∧
      (∀ w ∈ ws, w.owner_username = u) ∧
      (∀ w ∈ db.workouts, w.owner_username = u → w ∈ ws) := by
  refine ⟨db.workouts.filter (fun w => w.owner_username == u), ?_, ?_, ?_⟩
  · simp [get_workouts, h]
  · intro w hw
    simpa using (List.mem_filter.mp hw).2
  · intro w hw hown
    exact List.mem_filter.mpr ⟨hw, by simpa using hown⟩

/-- Witness for C1 at a concrete state: a table holding one workout of
alice and one of bob, queried with a token whose verified subject is
alice. -/
theorem get_workouts_owner_filter_witness :
    ∃ ws, get_workouts "s" 0 (jwtEncode "s" ⟨some "alice", 100⟩)
        ⟨[⟨1, "Squat", 5, 5, 100, "alice"⟩, ⟨2, "Bench", 3, 8, 60, "bob"⟩], 3⟩ = .ok ws ∧
      (∀ w ∈ ws, w.owner_username = "alice") ∧
      (∀ w ∈ (⟨[⟨1, "Squat", 5, 5, 100, "alice"⟩, ⟨2, "Bench", 3, 8, 60, "bob"⟩], 3⟩ : WorkoutDB).workouts,
        w.owner_username = "alice" → w ∈ ws) :=
  get_workouts_owner_filter "s" 0 (jwtEncode "s" ⟨some "alice", 100⟩)
    ⟨[⟨1, "Squat", 5, 5, 100, "alice"⟩, ⟨2, "Bench", 3, 8, 60, "bob"⟩], 3⟩ "alice"
    rfl

/-- C2: every token whose `exp` claim is in the past at verification time
is rejected by `get_current_user` with the 401 credentials exception, even
when its signature under the shared secret is valid (the statement
quantifies over all tokens, hence in particular over correctly signed
ones). -/
theorem expired_token_rejected (secret : String) (now : Nat) (t : JWT)
    (h : t.payload.exp < now) :
    get_current_user secret now t =
      .error ⟨401, "Could not validate credentials"⟩ := by
  unfold get_current_user jwtDecode
  by_cases hs : t.sig = hmacSHA256 secret t.payload
  · simp [hs, h]
  · simp [hs]

/-- Witness for C2: a token correctly signed with the shared secret but
whose expiry 50 lies before the verification time 100 is rejected. -/
theorem expired_token_rejected_witness :
    get_current_user "s" 100 (jwtEncode "s" ⟨some "alice", 50⟩) =
      .error ⟨401, "Could not validate credentials"⟩ :=
  expired_token_rejected "s" 100 (jwtEncode "s" ⟨some "alice", 50⟩) (by decide)

/-- C3 (round-trip): whenever `login_for_access_token` succeeds for
credentials `(u, p)` — i.e. `u` is a registered username and `p` its
correct password — the issued token, verified by the workout service's
`get_current_user` with the same shared secret at any time before the
token's expiry, yields exactly `u` as the subject. -/
theorem login_verify_roundtrip (secret : String) (db : UserDB)
    (now now' : Nat) (u p : String) (t : JWT)
    (hlogin : login_for_access_token secret db now u p = .ok t)
    (hfresh : ¬ t.payload.exp < now') :
    get_current_user secret now' t = .ok u := by
  unfold login_for_access_token at hlogin
  cases hfind : db.users.find? (fun r => r.username == u) with
  | none => rw [hfind] at hlogin; exact absurd hlogin (by simp)
  | some user =>
    rw [hfind] at hlogin
    by_cases hv : verify_password p user.hashed_password
    · simp only [hv, if_pos] at hlogin
      have husr : user.username = u := by
        have := List.find?_some hfind
        simpa using this
      rw [Except.ok.injEq] at hlogin
      subst hlogin
      have hexp : ¬ (now + ACCESS_TOKEN_EXPIRE_MINUTES * 60 < now') := by
        simp [create_access_token, jwtEncode] at hfresh
        omega
      simp [get_current_user, jwtDecode, create_access_token, jwtEncode,
        hexp, husr]
    · simp [hv] at hlogin

/-- Witness for C3: a store with the registered user alice, logging in at
time 0 with the correct password and verifying at time 600 (before the
1800-second expiry) returns alice. -/
theorem login_verify_roundtrip_witness :
    get_current_user "s" 600 (jwtEncode "s" ⟨some "alice", 1800⟩) = .ok "alice" :=
  login_verify_roundtrip "s" ⟨[⟨1, "alice", pwd_hash "pw1"⟩], 2⟩ 0 600 "alice" "pw1"
    (jwtEncode "s" ⟨some "alice", 1800⟩) rfl (by decide)

/-- C4: starting from any state in which username `u` is not registered,
the first `create_user u p` succeeds and stores a row for `u`, and a
second `create_user u p'` on the resulting state fails with the 400
Conflict error. -/
theorem register_twice_conflict (db : UserDB) (u p p' : String)
    (h : db.users.find? (fun r => r.username == u) = none) :
    ∃ usr db',
      create_user db u p = (.ok usr, db') ∧
      usr.username = u ∧
      usr ∈ db'.users ∧
      (create_user db' u p').1 = .error ⟨400, "Username already registered."⟩ := by
  refine ⟨⟨db.nextId, u, pwd_hash p⟩,
    ⟨db.users ++ [⟨db.nextId, u, pwd_hash p⟩], db.nextId + 1⟩, ?_, rfl, ?_, ?_⟩
  · simp [create_user, h]
  · simp
  · simp [create_user, List.find?_append, h]

/-- Witness for C4 from the empty store with username alice. -/
theorem register_twice_conflict_witness :
    ∃ usr db',
      create_user UserDB.empty "alice" "pw1" = (.ok usr, db') ∧
      usr.username = "alice" ∧
      usr ∈ db'.users ∧
      (create_user db' "alice" "pw2").1 =
        .error ⟨400, "Username already registered."⟩ :=
  register_twice_conflict UserDB.empty "alice" "pw1" "pw2" (by decide)

/-- C5 (Policy A fail-closed): whenever the directory check does not
report success — `user_exists` returns `false`, which covers every
non-200 response — the Policy A create fails with the 404 NotFound error
and leaves the table unchanged; and a connection failure to the directory
service makes `user_exists` report `false`, exactly as for an owner that
does not exist, rather than propagating the network error. -/
theorem policyA_create_fail_closed (db : WorkoutADB) (dir : DirectoryResult)
    (name : String) (sets reps weight : Int) (user_id : Nat)
    (h : user_exists dir = false) :
    create_workout_policyA db dir name sets reps weight user_id =
      (.error ⟨404, "User not found"⟩, db) ∧
    user_exists .connectionError = false := by
  constructor
  · simp [create_workout_policyA, h]
  · rfl

/-- Witness for C5: the directory call failing to connect makes the
Policy A create fail with 404 on a concrete state. -/
theorem policyA_create_fail_closed_witness :
    create_workout_policyA ⟨[], 1⟩ .connectionError "Squat" 5 5 100 7 =
      (.error ⟨404, "User not found"⟩, ⟨[], 1⟩) ∧
    user_exists .connectionError = false :=
  policyA_create_fail_closed ⟨[], 1⟩ .connectionError "Squat" 5 5 100 7 (by decide)

/-- C6 counterexample: the claim states the public view contains the id
and the username, but both endpoints serialize under
`response_model=UserBase`, whose only declared field is `username`; the
view of the user created by a concrete successful `create_user` has no
`"id"` key at all. -/
theorem user_view_missing_id_counterexample :
    (create_user UserDB.empty "alice" "pw").1 =
      .ok ⟨1, "alice", pwd_hash "pw"⟩ ∧
    "id" ∉ (userPublicView ⟨1, "alice", pwd_hash "pw"⟩).map Prod.fst := by
  exact ⟨rfl, by decide⟩

/-- C6 (amended): for every successful `create_user` and every successful
`get_user`, the returned public view (serialized under
`response_model=UserBase`) consists of exactly the single field
`"username"` holding the user's username — in particular it contains
neither the password hash field nor the id field. -/
theorem user_public_view_username_only (db : UserDB) (u p : String)
    (usr usr' : User) (uid : Nat)
    (hc : (create_user db u p).1 = .ok usr)
    (hg : get_user db uid = .ok usr') :
    userPublicView usr = [("username", u)] ∧
    usr' ∈ db.users ∧
    userPublicView usr' = [("username", usr'.username)] ∧
    (userPublicView usr).map Prod.fst = ["username"] ∧
    "hashed_password" ∉ (userPublicView usr).map Prod.fst ∧
    "id" ∉ (userPublicView usr).map Prod.fst ∧
    "hashed_password" ∉ (userPublicView usr').map Prod.fst ∧
    "id" ∉ (userPublicView usr').map Prod.fst := by
  have husr : usr.username = u := by
    unfold create_user at hc
    cases hf : db.users.find? (fun r => r.username == u) with
    | some w => rw [hf] at hc; simp at hc
    | none =>
        rw [hf] at hc
        simp only [Except.ok.injEq] at hc
        rw [← hc]
  have hmem : usr' ∈ db.users := by
    unfold get_user at hg
    cases hf : db.users.find? (fun r => r.id == uid) with
    | none => rw [hf] at hg; simp at hg
    | some w =>
        rw [hf] at hg
        simp only [Except.ok.injEq] at hg
        subst hg
        exact List.mem_of_find?_eq_some hf
  refine ⟨?_, hmem, rfl, by simp [userPublicView], by simp [userPublicView],
    by simp [userPublicView], by simp [userPublicView]⟩
  simp [userPublicView, husr]

/-- Witness for C6 (amended) on a concrete store: creating bob in a store
holding alice, and reading alice back by id. -/
theorem user_public_view_username_only_witness :
    userPublicView ⟨2, "bob", pwd_hash "pw2"⟩ = [("username", "bob")] ∧
    (⟨1, "alice", pwd_hash "pw1"⟩ : User) ∈
      (⟨[⟨1, "alice", pwd_hash "pw1"⟩], 2⟩ : UserDB).users ∧
    userPublicView ⟨1, "alice", pwd_hash "pw1"⟩ =
      [("username", (⟨1, "alice", pwd_hash "pw1"⟩ : User).username)] ∧
    (userPublicView ⟨2, "bob", pwd_hash "pw2"⟩).map Prod.fst = ["username"] ∧
    "hashed_password" ∉ (userPublicView ⟨2, "bob", pwd_hash "pw2"⟩).map Prod.fst ∧
    "id" ∉ (userPublicView ⟨2, "bob", pwd_hash "pw2"⟩).map Prod.fst ∧
    "hashed_password" ∉ (userPublicView ⟨1, "alice", pwd_hash "pw1"⟩).map Prod.fst ∧
    "id" ∉ (userPublicView ⟨1, "alice", pwd_hash "pw1"⟩).map Prod.fst :=
  user_public_view_username_only ⟨[⟨1, "alice", pwd_hash "pw1"⟩], 2⟩ "bob" "pw2"
    ⟨2, "bob", pwd_hash "pw2"⟩ ⟨1, "alice", pwd_hash "pw1"⟩ 1 rfl rfl

/-- C7 counterexample: a token created by `create_access_token` with no
explicit expiry duration at time 0 has `exp = 900` (15 minutes), not
`1800` (30 minutes) as the claim states. -/
theorem default_expiry_counterexample :
    (create_access_token "s" 0 (some "alice") none).payload.exp = 15 * 60 ∧
    (create_access_token "s" 0 (some "alice") none).payload.exp ≠ 30 * 60 := by
  decide

/-- C7 (amended): the fallback expiry used when no duration is supplied is
15 minutes after issuance (`timedelta(minutes=15)` in
`create_access_token`), while tokens issued by the login endpoint carry an
explicitly supplied 30-minute duration
(`ACCESS_TOKEN_EXPIRE_MINUTES = 30`) and so expire 30 minutes after
issuance. -/
theorem token_expiry_durations (secret : String) (now : Nat)
    (dsub : Option String) (db : UserDB) (u p : String) (t : JWT)
    (hlogin : login_for_access_token secret db now u p = .ok t) :
    (create_access_token secret now dsub none).payload.exp = now + 15 * 60 ∧
    t.payload.exp = now + 30 * 60 := by
  constructor
  · rfl
  · unfold login_for_access_token at hlogin
    cases hfind : db.users.find? (fun r => r.username == u) with
    | none => rw [hfind] at hlogin; exact absurd hlogin (by simp)
    | some user =>
      rw [hfind] at hlogin
      by_cases hv : verify_password p user.hashed_password
      · simp only [hv, if_pos, Except.ok.injEq] at hlogin
        subst hlogin
        rfl
      · simp [hv] at hlogin

/-- Witness for C7 (amended) at a concrete login issuing at time 0. -/
theorem token_expiry_durations_witness :
    (create_access_token "s" 0 (some "alice") none).payload.exp = 0 + 15 * 60 ∧
    (jwtEncode "s" ⟨some "alice", 1800⟩ : JWT).payload.exp = 0 + 30 * 60 :=
  token_expiry_durations "s" 0 (some "alice")
    ⟨[⟨1, "alice", pwd_hash "pw1"⟩], 2⟩ "alice" "pw1"
    (jwtEncode "s" ⟨some "alice", 1800⟩) rfl

/-- C8 (Policy B create): for every verified bearer token with subject `u`
and every request body, `create_workout` succeeds and commits a row whose
`owner_username` is exactly the verified subject `u` — the body
(`WorkoutCreate`) has no owner field, so the owner can only come from the
token — and the returned row is the stored row, owner included. -/
theorem create_workout_owner_from_token (secret : String) (now : Nat)
    (token : JWT) (db : WorkoutDB) (body : WorkoutCreate) (u : String)
    (h : get_current_user secret now token = .ok u) :
    ∃ rec db',
      create_workout secret now token db body = (.ok rec, db') ∧
      rec.owner_username = u ∧
      rec.name = body.name ∧ rec.sets = body.sets ∧
      rec.reps = body.reps ∧ rec.weight = body.weight ∧
      db'.workouts = db.workouts ++ [rec] := by
  refine ⟨⟨db.nextId, body.name, body.sets, body.reps, body.weight, u⟩,
    ⟨db.workouts ++ [⟨db.nextId, body.name, body.sets, body.reps, body.weight, u⟩],
      db.nextId + 1⟩, ?_, rfl, rfl, rfl, rfl, rfl, rfl⟩
  simp [create_workout, h]

/-- Witness for C8: alice's token creates the Squat 5×5 100 workout in the
empty table and the stored row is owned by alice. -/
theorem create_workout_owner_from_token_witness :
    ∃ rec db',
      create_workout "s" 0 (jwtEncode "s" ⟨some "alice", 100⟩) WorkoutDB.empty
        ⟨"Squat", 5, 5, 100⟩ = (.ok rec, db') ∧
      rec.owner_username = "alice" ∧
      rec.name = (⟨"Squat", 5, 5, 100⟩ : WorkoutCreate).name ∧
      rec.sets = (⟨"Squat", 5, 5, 100⟩ : WorkoutCreate).sets ∧
      rec.reps = (⟨"Squat", 5, 5, 100⟩ : WorkoutCreate).reps ∧
      rec.weight = (⟨"Squat", 5, 5, 100⟩ : WorkoutCreate).weight ∧
      db'.workouts = WorkoutDB.empty.workouts ++ [rec] :=
  create_workout_owner_from_token "s" 0 (jwtEncode "s" ⟨some "alice", 100⟩)
    WorkoutDB.empty ⟨"Squat", 5, 5, 100⟩ "alice" rfl

/-- C9: a token whose signature under the shared secret is valid and whose
expiry has not elapsed, but whose claims payload has no `"sub"` claim, is
rejected with the 401 credentials exception by `get_current_user`, and is
therefore never accepted by the create or the list endpoint. -/
theorem missing_sub_rejected (secret : String) (now texp : Nat)
    (db : WorkoutDB) (body : WorkoutCreate)
    (h : ¬ texp < now) :
    get_current_user secret now (jwtEncode secret ⟨none, texp⟩) =
      .error ⟨401, "Could not validate credentials"⟩ ∧
    (create_workout secret now (jwtEncode secret ⟨none, texp⟩) db body).1 =
      .error ⟨401, "Could not validate credentials"⟩ ∧
    get_workouts secret now (jwtEncode secret ⟨none, texp⟩) db =
      .error ⟨401, "Could not validate credentials"⟩ := by
  have hgc : get_current_user secret now (jwtEncode secret ⟨none, texp⟩) =
      .error ⟨401, "Could not validate credentials"⟩ := by
    simp [get_current_user, jwtDecode, jwtEncode, h]
  exact ⟨hgc, by simp [create_workout, hgc], by simp [get_workouts, hgc]⟩

/-- Witness for C9: a correctly signed, unexpired token carrying no
subject claim is rejected by all three entry points on a concrete state. -/
theorem missing_sub_rejected_witness :
    get_current_user "s" 10 (jwtEncode "s" ⟨none, 100⟩) =
      .error ⟨401, "Could not validate credentials"⟩ ∧
    (create_workout "s" 10 (jwtEncode "s" ⟨none, 100⟩) WorkoutDB.empty
        ⟨"Squat", 5, 5, 100⟩).1 =
      .error ⟨401, "Could not validate credentials"⟩ ∧
    get_workouts "s" 10 (jwtEncode "s" ⟨none, 100⟩) WorkoutDB.empty =
      .error ⟨401, "Could not validate credentials"⟩ :=
  missing_sub_rejected "s" 10 100 WorkoutDB.empty ⟨"Squat", 5, 5, 100⟩ (by decide)

/-- C10 (atomicity of registration): whenever `create_user` fails — in
particular with the 400 Conflict because the username already exists —
the user table state it hands back is exactly the input state: no row is
added, removed, or modified by the failed call. -/
theorem register_conflict_store_unchanged (db : UserDB) (u p : String)
    (e : HTTPException)
    (h : (create_user db u p).1 = .error e) :
    (create_user db u p).2 = db := by
  unfold create_user at h ⊢
  cases hf : db.users.find? (fun r => r.username == u) with
  | some usr => rfl
  | none => rw [hf] at h; simp at h

/-- Witness for C10: re-registering alice in a store that already holds
alice fails and leaves the store exactly as it was. -/
theorem register_conflict_store_unchanged_witness :
    (create_user ⟨[⟨1, "alice", pwd_hash "pw1"⟩], 2⟩ "alice" "pw2").2 =
      ⟨[⟨1, "alice", pwd_hash "pw1"⟩], 2⟩ :=
  register_conflict_store_unchanged ⟨[⟨1, "alice", pwd_hash "pw1"⟩], 2⟩
    "alice" "pw2" ⟨400, "Username already registered."⟩ rfl
